import Mathlib

/-!
# Verification of the MODULR outfit-generation core

Shallow embedding of `src/supabase/functions/server/color-engine.tsx` and the
outfit-generation half of `src/supabase/functions/server/index.tsx`.

Modelling conventions:
* JavaScript numbers are modelled as exact rationals (`ℚ`); the scoring
  pipeline only adds, subtracts, multiplies and divides small decimal
  constants, so the rational model matches the float computation on every
  bound stated here.
* `Array.prototype.sort` with the comparator
  `(a, b) => b.compatibilityScore - a.compatibilityScore` is, per the
  ECMAScript specification, a stable sort consistent with the comparator;
  the stable sorted order for a consistent comparator is unique, so it is
  modelled by `List.insertionSort` with the relation
  "`b.compatibilityScore ≤ a.compatibilityScore`" (which is stable in
  exactly that sense).
* `Array.prototype.slice(0, n)` is modelled by `jsSliceEnd`, including the
  negative-end-index semantics (`n < 0` means `length + n`, floored at 0).
* `String.prototype.toLowerCase` is modelled by `Char.toLower` on each
  character, which agrees with JavaScript on the ASCII strings used by the
  engine (category names, occasion labels, occasion tags).
-/

/-- JavaScript `Math.round`: round half toward positive infinity. -/
def jsRound (x : ℚ) : ℤ := ⌊x + 1 / 2⌋

/-- Truncation toward zero, as used by the JavaScript `%` operator. -/
def jsTrunc (x : ℚ) : ℤ := if 0 ≤ x then ⌊x⌋ else ⌈x⌉

/-- JavaScript remainder operator `x % y` (sign follows the dividend). -/
def jsRem (x y : ℚ) : ℚ := x - y * jsTrunc (x / y)

/-- JavaScript `String.prototype.toLowerCase` restricted to ASCII. -/
def jsToLower (s : String) : String := s.map Char.toLower

/-- JavaScript `arr.slice(0, n)`: a negative `n` counts from the end of the
array (`length + n`, floored at 0); a non-negative `n` is capped at the
length. -/
def jsSliceEnd (l : List α) (n : ℤ) : List α :=
  let e : ℤ := if n < 0 then max ((l.length : ℤ) + n) 0 else min n (l.length : ℤ)
  l.take e.toNat

/-- `interface RGB` from `color-engine.tsx`.  `hexToRgb` only ever produces
8-bit channels, so the channels are modelled as naturals. -/
structure RGB where
  r : Nat
  g : Nat
  b : Nat
  deriving DecidableEq, Repr

/-- `interface HSV` from `color-engine.tsx`. -/
structure HSV where
  h : ℚ
  s : ℚ
  v : ℚ
  deriving DecidableEq, Repr

/-- A character matched by the regex class `[a-f\d]` with the `i` flag. -/
def isHexDigit (c : Char) : Bool :=
  (('0' ≤ c) && (c ≤ '9')) || (('a' ≤ c) && (c ≤ 'f')) || (('A' ≤ c) && (c ≤ 'F'))

/-- Numeric value of a hexadecimal digit (0 for non-digits; only applied to
characters accepted by `isHexDigit`). -/
def hexDigitVal (c : Char) : Nat :=
  if ('0' ≤ c) && (c ≤ '9') then c.toNat - '0'.toNat
  else if ('a' ≤ c) && (c ≤ 'f') then c.toNat - 'a'.toNat + 10
  else if ('A' ≤ c) && (c ≤ 'F') then c.toNat - 'A'.toNat + 10
  else 0

/-- `parseInt` of a two-hex-digit group. -/
def hexPairVal (c1 c2 : Char) : Nat := 16 * hexDigitVal c1 + hexDigitVal c2

/-- The optional leading `#` of the regex `/^#?([a-f\d]{2})([a-f\d]{2})([a-f\d]{2})$/i`:
a string starting with `#` can only match with the `#` consumed, and a string
not starting with `#` can only match without it. -/
def stripHash : List Char → List Char
  | '#' :: rest => rest
  | cs => cs

/-- `hexToRgb` from `color-engine.tsx`: parse `#RRGGBB` (the `#` optional,
case-insensitive); on any parse failure return black. -/
def hexToRgb (hex : String) : RGB :=
  match stripHash hex.data with
  | [c1, c2, c3, c4, c5, c6] =>
    if isHexDigit c1 && isHexDigit c2 && isHexDigit c3 && isHexDigit c4 &&
        isHexDigit c5 && isHexDigit c6 then
      { r := hexPairVal c1 c2, g := hexPairVal c3 c4, b := hexPairVal c5 c6 }
    else { r := 0, g := 0, b := 0 }
  | _ => { r := 0, g := 0, b := 0 }

/-- `rgbToHsv` from `color-engine.tsx`. -/
def rgbToHsv (rgb : RGB) : HSV :=
  let r : ℚ := (rgb.r : ℚ) / 255
  let g : ℚ := (rgb.g : ℚ) / 255
  let b : ℚ := (rgb.b : ℚ) / 255
  let mx := Max.max r (Max.max g b)
  let mn := Min.min r (Min.min g b)
  let diff := mx - mn
  let h0 : ℚ :=
    if diff = 0 then 0
    else if mx = r then jsRem ((g - b) / diff) 6
    else if mx = g then (b - r) / diff + 2
    else (r - g) / diff + 4
  let h1 : ℤ := jsRound (h0 * 60)
  let h2 : ℤ := if h1 < 0 then h1 + 360 else h1
  let s : ℚ := if mx = 0 then 0 else diff / mx * 100
  let v : ℚ := mx * 100
  { h := (h2 : ℚ), s := s, v := v }

/-- `hexToHsv` from `color-engine.tsx`. -/
def hexToHsv (hex : String) : HSV := rgbToHsv (hexToRgb hex)

/-- `isNeutral` from `color-engine.tsx`. -/
def isNeutral (hsv : HSV) : Bool :=
  if hsv.s < 20 then true
  else if 210 ≤ hsv.h ∧ hsv.h ≤ 240 ∧ hsv.s < 60 then true
  else if 30 ≤ hsv.h ∧ hsv.h ≤ 50 ∧ hsv.s < 40 then true
  else false

/-- `calculateContrast` from `color-engine.tsx`. -/
def calculateContrast (hsv1 hsv2 : HSV) : ℚ :=
  (|hsv1.v - hsv2.v| + |hsv1.s - hsv2.s|) / 200

/-- `areComplementary` from `color-engine.tsx`. -/
def areComplementary (hsv1 hsv2 : HSV) : Bool :=
  let hueDiff := |hsv1.h - hsv2.h|
  (150 ≤ hueDiff ∧ hueDiff ≤ 210) ∨ (330 ≤ hueDiff ∨ hueDiff ≤ 30)

/-- `areAnalogous` from `color-engine.tsx`. -/
def areAnalogous (hsv1 hsv2 : HSV) : Bool :=
  let hueDiff := |hsv1.h - hsv2.h|
  hueDiff ≤ 60

/-- Result record of `calculateColorCompatibility`. -/
structure ColorResult where
  score : ℚ
  explanation : String
  deriving DecidableEq, Repr

/-- `calculateColorCompatibility` from `color-engine.tsx`: base score 0.5,
nine rule adjustments, final clamp to [0,1], with the triggered rules'
rationales joined by `". "` (falling back to a fixed sentence). -/
def calculateColorCompatibility (topColor bottomColor shoeColor occasion : String) :
    ColorResult :=
  let topHsv := hexToHsv topColor
  let bottomHsv := hexToHsv bottomColor
  let shoeHsv := hexToHsv shoeColor
  let topNeutral := isNeutral topHsv
  let bottomNeutral := isNeutral bottomHsv
  let shoeNeutral := isNeutral shoeHsv
  -- Rule 1: neutral colors are always safe
  let s1 : ℚ :=
    if topNeutral && bottomNeutral && shoeNeutral then 0.5 + 0.3
    else if (topNeutral || bottomNeutral) && shoeNeutral then 0.5 + 0.2
    else 0.5
  let r1 : List String :=
    if topNeutral && bottomNeutral && shoeNeutral then
      ["All neutral colors create a sophisticated look"]
    else if (topNeutral || bottomNeutral) && shoeNeutral then
      ["Neutral shoes balance the outfit"]
    else []
  -- Rule 2: dark top with light bottom
  let s2 := if topHsv.v < 40 ∧ 60 < bottomHsv.v then s1 + 0.15 else s1
  let r2 := if topHsv.v < 40 ∧ 60 < bottomHsv.v then
      r1 ++ ["Dark top with light bottom creates visual balance"] else r1
  -- Rule 3: light top with dark bottom
  let s3 := if 60 < topHsv.v ∧ bottomHsv.v < 40 then s2 + 0.1 else s2
  let r3 := if 60 < topHsv.v ∧ bottomHsv.v < 40 then
      r2 ++ ["Light top with dark bottom is a classic combination"] else r2
  -- Rule 4: complementary colors
  let s4 :=
    if areComplementary topHsv bottomHsv then
      if occasion = "casual" ∨ occasion = "party" then s3 + 0.1 else s3 - 0.1
    else s3
  let r4 :=
    if areComplementary topHsv bottomHsv then
      if occasion = "casual" ∨ occasion = "party" then
        r3 ++ ["Complementary colors add visual interest"]
      else r3 ++ ["Complementary colors may be too bold for this occasion"]
    else r3
  -- Rule 5: analogous colors
  let s5 := if areAnalogous topHsv bottomHsv ∧ topNeutral = false ∧ bottomNeutral = false then
      s4 + 0.15 else s4
  let r5 := if areAnalogous topHsv bottomHsv ∧ topNeutral = false ∧ bottomNeutral = false then
      r4 ++ ["Analogous colors create harmony"] else r4
  -- Rule 6: occasion-specific contrast rules
  let contrast := calculateContrast topHsv bottomHsv
  let s6 :=
    if occasion = "formal" ∨ occasion = "work" then
      if contrast < 0.3 then s5 + 0.15
      else if 0.6 < contrast then s5 - 0.1
      else s5
    else if occasion = "casual" ∨ occasion = "college" ∨ occasion = "party" then
      if 0.4 < contrast ∧ contrast < 0.7 then s5 + 0.1 else s5
    else s5
  let r6 :=
    if occasion = "formal" ∨ occasion = "work" then
      if contrast < 0.3 then r5 ++ ["Low contrast is appropriate for formal settings"]
      else if 0.6 < contrast then r5 ++ ["High contrast may be too casual for this occasion"]
      else r5
    else if occasion = "casual" ∨ occasion = "college" ∨ occasion = "party" then
      if 0.4 < contrast ∧ contrast < 0.7 then r5 ++ ["Good contrast adds visual appeal"] else r5
    else r5
  -- Rule 7: bold top needs neutral footwear
  let s7 := if 60 < topHsv.s ∧ 50 < topHsv.v ∧ shoeNeutral = true then s6 + 0.1 else s6
  let r7 := if 60 < topHsv.s ∧ 50 < topHsv.v ∧ shoeNeutral = true then
      r6 ++ ["Neutral footwear balances the bold top"] else r6
  -- Rule 8: all bold colors
  let s8 := if 60 < topHsv.s ∧ 60 < bottomHsv.s ∧ 60 < shoeHsv.s then s7 - 0.2 else s7
  let r8 := if 60 < topHsv.s ∧ 60 < bottomHsv.s ∧ 60 < shoeHsv.s then
      r7 ++ ["Too many bold colors can be overwhelming"] else r7
  -- Rule 9: monochromatic
  let s9 := if |topHsv.h - bottomHsv.h| < 30 ∧ 20 < |topHsv.v - bottomHsv.v| ∧
      topNeutral = false then s8 + 0.15 else s8
  let r9 := if |topHsv.h - bottomHsv.h| < 30 ∧ 20 < |topHsv.v - bottomHsv.v| ∧
      topNeutral = false then r8 ++ ["Monochromatic palette creates cohesion"] else r8
  let score := max 0 (min 1 s9)
  let joined := String.intercalate ". " r9
  { score := score
    explanation := if joined = "" then "Standard color combination" else joined }

/-- `getShoeRecommendation` from `color-engine.tsx`. -/
def getShoeRecommendation (topColor bottomColor occasion : String) : String :=
  let topHsv := hexToHsv topColor
  let bottomHsv := hexToHsv bottomColor
  if occasion = "formal" ∨ occasion = "work" then
    if bottomHsv.v < 30 then "Black leather shoes for formal elegance"
    else if 20 ≤ bottomHsv.h ∧ bottomHsv.h ≤ 40 then
      "Brown leather shoes complement earth tones"
    else "Dark leather shoes maintain professionalism"
  else if occasion = "casual" ∨ occasion = "college" then
    if isNeutral topHsv && isNeutral bottomHsv then "White sneakers add a fresh touch"
    else if 60 < topHsv.s ∨ 60 < bottomHsv.s then "Neutral sneakers balance bold colors"
    else "Casual sneakers complete the look"
  else if occasion = "party" then
    if topHsv.v < 40 ∧ bottomHsv.v < 40 then "Bold sneakers or boots add personality"
    else "Statement footwear to stand out"
  else "Versatile neutral footwear"

/-- `interface ClothingItem` from `index.tsx`. -/
structure ClothingItem where
  id : String
  userId : String
  category : String
  primaryColor : String
  secondaryColor : Option String
  fit : String
  fabric : String
  occasionTags : List String
  createdAt : String
  deriving DecidableEq, Repr

/-- `interface OutfitCombination` from `index.tsx`. -/
structure OutfitCombination where
  top : ClothingItem
  bottom : ClothingItem
  footwear : ClothingItem
  layer : Option ClothingItem
  compatibilityScore : ℚ
  colorScore : ℚ
  explanation : String
  shoeRecommendation : String
  deriving DecidableEq, Repr

/-- `isItemSuitableForOccasion` from `index.tsx`: case-insensitive membership
of the occasion in the item's occasion tags. -/
def isItemSuitableForOccasion (item : ClothingItem) (occasion : String) : Bool :=
  let occasionLower := jsToLower occasion
  item.occasionTags.any fun tag => jsToLower tag == occasionLower

/-- `getCategoryType` from `index.tsx`. -/
def getCategoryType (category : String) : String :=
  if ["shirt", "tshirt"].contains category then "top"
  else if ["trousers", "jeans"].contains category then "bottom"
  else if ["sneakers", "formal_shoes", "boots"].contains category then "footwear"
  else if ["blazer"].contains category then "layer"
  else "unknown"

/-- `meetsOccasionRequirements` from `index.tsx`: the hard formal and work
gates.  The two occasion branches are mutually exclusive, so the source's
sequential early-return style is rendered as nested conditionals. -/
def meetsOccasionRequirements (top bottom footwear : ClothingItem) (occasion : String) :
    Bool :=
  let occasionLower := jsToLower occasion
  if occasionLower = "formal" then
    if footwear.category ≠ "formal_shoes" then false
    else if top.category = "tshirt" then false
    else if bottom.category = "jeans" then false
    else true
  else if occasionLower = "work" then
    if footwear.category = "sneakers" ∧ footwear.occasionTags.contains "work" = false then
      false
    else true
  else true

/-- `calculateFitCompatibility` from `index.tsx`. -/
def calculateFitCompatibility (top bottom : ClothingItem) : ℚ :=
  if top.fit = bottom.fit then 0.3
  else if top.fit = "slim" ∧ bottom.fit = "regular" then 0.25
  else if top.fit = "regular" ∧ bottom.fit = "slim" then 0.2
  else if top.fit = "oversized" ∨ bottom.fit = "oversized" then 0.1
  else 0.15

/-- `calculateFabricCompatibility` from `index.tsx`. -/
def calculateFabricCompatibility (top bottom : ClothingItem) (occasion : String) : ℚ :=
  let occasionLower := jsToLower occasion
  if occasionLower = "formal" ∧ (top.fabric = "cotton" ∨ top.fabric = "wool") ∧
      (bottom.fabric = "wool" ∨ bottom.fabric = "cotton") then 0.25
  else if (occasionLower = "casual" ∨ occasionLower = "college") ∧ bottom.fabric = "denim" then
    0.2
  else if top.fabric = "cotton" ∧ bottom.fabric = "wool" then 0.2
  else 0.15

/-- The triple loop of `generateOutfits` from `index.tsx`: enumerate tops,
then bottoms, then footwear (in catalog order), keep the occasion-suitable
items and the triples passing `meetsOccasionRequirements`, and build one
`OutfitCombination` record per surviving triple, in enumeration order. -/
def enumerateOutfits (items : List ClothingItem) (occasion : String) :
    List OutfitCombination :=
  let tops := items.filter fun item => getCategoryType item.category == "top"
  let bottoms := items.filter fun item => getCategoryType item.category == "bottom"
  let footwear := items.filter fun item => getCategoryType item.category == "footwear"
  let layers := items.filter fun item => getCategoryType item.category == "layer"
  (tops.filter fun top => isItemSuitableForOccasion top occasion).flatMap fun top =>
    (bottoms.filter fun bottom => isItemSuitableForOccasion bottom occasion).flatMap
      fun bottom =>
      ((footwear.filter fun shoe => isItemSuitableForOccasion shoe occasion).filter
          fun shoe => meetsOccasionRequirements top bottom shoe occasion).map fun shoe =>
        let colorResult := calculateColorCompatibility top.primaryColor bottom.primaryColor
          shoe.primaryColor occasion
        let fitScore := calculateFitCompatibility top bottom
        let fabricScore := calculateFabricCompatibility top bottom occasion
        let compatibilityScore := colorResult.score * 0.5 + fitScore + fabricScore
        let shoeRecommendation := getShoeRecommendation top.primaryColor bottom.primaryColor
          occasion
        let layer : Option ClothingItem :=
          if jsToLower occasion = "formal" ∨ jsToLower occasion = "work" then
            layers.find? fun l => isItemSuitableForOccasion l occasion
          else none
        { top := top, bottom := bottom, footwear := shoe, layer := layer,
          compatibilityScore := compatibilityScore, colorScore := colorResult.score,
          explanation := colorResult.explanation, shoeRecommendation := shoeRecommendation }

/-- The comparator `(a, b) => b.compatibilityScore - a.compatibilityScore`
of `generateOutfits`, as the "may precede" relation of the stable sort. -/
def outfitGE (a b : OutfitCombination) : Prop :=
  b.compatibilityScore ≤ a.compatibilityScore

instance : DecidableRel outfitGE :=
  fun a b => inferInstanceAs (Decidable (b.compatibilityScore ≤ a.compatibilityScore))

instance : IsTotal OutfitCombination outfitGE :=
  ⟨fun a b => le_total b.compatibilityScore a.compatibilityScore⟩

instance : IsTrans OutfitCombination outfitGE :=
  ⟨fun _ _ _ h1 h2 => le_trans h2 h1⟩

/-- `generateOutfits` from `index.tsx`: enumerate, stable-sort by descending
`compatibilityScore`, and truncate with `slice(0, maxOutfits)`. -/
def generateOutfits (items : List ClothingItem) (occasion : String) (maxOutfits : ℤ := 10) :
    List OutfitCombination :=
  jsSliceEnd (List.insertionSort outfitGE (enumerateOutfits items occasion)) maxOutfits

/-! ## Helper lemmas -/

theorem jsToLower_formal : jsToLower "formal" = "formal" := by with_unfolding_all rfl

theorem jsToLower_work : jsToLower "work" = "work" := by with_unfolding_all rfl

theorem jsToLower_Work : jsToLower "Work" = "work" := by with_unfolding_all rfl

/-- Unpack membership in the enumeration: every enumerated combination comes
from a suitable triple passing the occasion gate, and its score fields are
the recomputable scores of its own items. -/
theorem fields_of_mem_enumerateOutfits {items : List ClothingItem} {occasion : String}
    {o : OutfitCombination} (h : o ∈ enumerateOutfits items occasion) :
    isItemSuitableForOccasion o.top occasion = true ∧
    isItemSuitableForOccasion o.bottom occasion = true ∧
    isItemSuitableForOccasion o.footwear occasion = true ∧
    meetsOccasionRequirements o.top o.bottom o.footwear occasion = true ∧
    o.colorScore = (calculateColorCompatibility o.top.primaryColor o.bottom.primaryColor
      o.footwear.primaryColor occasion).score ∧
    o.compatibilityScore = o.colorScore * 0.5 + calculateFitCompatibility o.top o.bottom +
      calculateFabricCompatibility o.top o.bottom occasion ∧
    o.layer = (if jsToLower occasion = "formal" ∨ jsToLower occasion = "work" then
      (items.filter fun item => getCategoryType item.category == "layer").find?
        fun l => isItemSuitableForOccasion l occasion
      else none) := by
  simp only [enumerateOutfits, List.mem_flatMap, List.mem_filter, List.mem_map] at h
  obtain ⟨top, ⟨-, htop⟩, bottom, ⟨-, hbottom⟩, shoe, ⟨⟨-, hshoe⟩, hmeets⟩, rfl⟩ := h
  exact ⟨htop, hbottom, hshoe, hmeets, rfl, rfl, rfl⟩

theorem mem_enumerateOutfits_of_mem_generateOutfits {items : List ClothingItem}
    {occasion : String} {k : ℤ} {o : OutfitCombination}
    (h : o ∈ generateOutfits items occasion k) : o ∈ enumerateOutfits items occasion := by
  unfold generateOutfits jsSliceEnd at h
  exact (List.mem_insertionSort outfitGE).mp (List.mem_of_mem_take h)

/-! ## Concrete wardrobes used by witnesses and counterexamples -/

set_option maxRecDepth 10000

/-- Shorthand for building a `ClothingItem`. -/
def mkItem (idx cat color ft fb : String) (tags : List String) : ClothingItem :=
  { id := idx, userId := "u", category := cat, primaryColor := color,
    secondaryColor := none, fit := ft, fabric := fb, occasionTags := tags,
    createdAt := "t" }

def formalTop : ClothingItem := mkItem "t1" "shirt" "#99ccff" "slim" "cotton" ["formal"]

def formalBottom : ClothingItem := mkItem "b1" "trousers" "#000000" "slim" "wool" ["formal"]

def formalShoe : ClothingItem :=
  mkItem "s1" "formal_shoes" "#000000" "regular" "leather" ["formal"]

def formalBlazer : ClothingItem := mkItem "l1" "blazer" "#000000" "regular" "wool" ["formal"]

/-- One eligible top, bottom, formal shoe and blazer, all of neutral primary
color, all tagged for "formal". -/
def formalCatalog : List ClothingItem := [formalTop, formalBottom, formalShoe, formalBlazer]

/-- The single combination generated from `formalCatalog` for "formal". -/
def formalCombo : OutfitCombination :=
  { top := formalTop, bottom := formalBottom, footwear := formalShoe,
    layer := some formalBlazer, compatibilityScore := 9/10, colorScore := 7/10,
    explanation := "All neutral colors create a sophisticated look. Light top with dark bottom is a classic combination. Complementary colors may be too bold for this occasion. High contrast may be too casual for this occasion",
    shoeRecommendation := "Black leather shoes for formal elegance" }

def workTop : ClothingItem := mkItem "t1" "shirt" "#ffffff" "slim" "cotton" ["work"]

def workBottom : ClothingItem := mkItem "b1" "trousers" "#000000" "slim" "wool" ["work"]

/-- Sneakers tagged `"Work"` (capitalised) but not `"work"`. -/
def workSneaker : ClothingItem := mkItem "s1" "sneakers" "#000000" "regular" "leather" ["Work"]

def workBoots : ClothingItem := mkItem "s2" "boots" "#663300" "regular" "leather" ["work"]

def workCatalog : List ClothingItem := [workTop, workBottom, workSneaker, workBoots]

/-- The single combination generated from `workCatalog` for "work": the
mis-cased sneakers are discarded and only the boots survive. -/
def workCombo : OutfitCombination :=
  { top := workTop, bottom := workBottom, footwear := workBoots,
    layer := none, compatibilityScore := 3/4, colorScore := 1/2,
    explanation := "Light top with dark bottom is a classic combination. Complementary colors may be too bold for this occasion",
    shoeRecommendation := "Black leather shoes for formal elegance" }

/-! ## C1: the formal occasion gate -/

/-- C1: for occasion "formal", a (top, bottom, footwear) triple with a
`tshirt` top, a `jeans` bottom, or non-`formal_shoes` footwear is rejected by
`meetsOccasionRequirements` (so it is discarded before scoring), and every
outfit returned by `generateOutfits` has a non-`tshirt` top, a non-`jeans`
bottom, and footwear of category exactly `formal_shoes`. -/
theorem generateOutfits_formal_gate :
    (∀ top bottom shoe : ClothingItem,
      shoe.category ≠ "formal_shoes" ∨ top.category = "tshirt" ∨
        bottom.category = "jeans" →
      meetsOccasionRequirements top bottom shoe "formal" = false) ∧
    (∀ (items : List ClothingItem) (k : ℤ) (o : OutfitCombination),
      o ∈ generateOutfits items "formal" k →
      o.top.category ≠ "tshirt" ∧ o.bottom.category ≠ "jeans" ∧
        o.footwear.category = "formal_shoes") := by
  have gate : ∀ top bottom shoe : ClothingItem,
      shoe.category ≠ "formal_shoes" ∨ top.category = "tshirt" ∨
        bottom.category = "jeans" →
      meetsOccasionRequirements top bottom shoe "formal" = false := by
    intro top bottom shoe h
    unfold meetsOccasionRequirements
    rw [jsToLower_formal]
    rcases h with h | h | h <;> simp [h]
  refine ⟨gate, fun items k o h => ?_⟩
  have hmeets := (fields_of_mem_enumerateOutfits
    (mem_enumerateOutfits_of_mem_generateOutfits h)).2.2.2.1
  refine ⟨fun hc => ?_, fun hc => ?_, ?_⟩
  · rw [gate o.top o.bottom o.footwear (Or.inr (Or.inl hc))] at hmeets
    exact Bool.false_ne_true hmeets
  · rw [gate o.top o.bottom o.footwear (Or.inr (Or.inr hc))] at hmeets
    exact Bool.false_ne_true hmeets
  · by_contra hc
    rw [gate o.top o.bottom o.footwear (Or.inl hc)] at hmeets
    exact Bool.false_ne_true hmeets

/-- Witness for C1 on a concrete catalog and a concrete violating triple. -/
theorem generateOutfits_formal_gate_witness :
    meetsOccasionRequirements formalTop formalBottom workBoots "formal" = false ∧
    (formalCombo.top.category ≠ "tshirt" ∧ formalCombo.bottom.category ≠ "jeans" ∧
      formalCombo.footwear.category = "formal_shoes") :=
  ⟨generateOutfits_formal_gate.1 formalTop formalBottom workBoots
      (Or.inl (by with_unfolding_all decide)),
    generateOutfits_formal_gate.2 formalCatalog 10 formalCombo
      (by with_unfolding_all decide)⟩

/-! ## C10: case-sensitive work gate vs case-insensitive eligibility -/

/-- C10: a `sneakers` item whose tags contain `"Work"` but not the exact
lowercase `"work"` passes the case-insensitive occasion filter, yet every
(top, bottom) pairing with it is rejected by the work gate's case-sensitive
`occasionTags.includes("work")` check, so it is the footwear of no outfit
returned for occasion "work". -/
theorem workGate_caseSensitive_excludes_sneakers :
    ∀ (items : List ClothingItem) (shoe : ClothingItem) (k : ℤ),
      shoe.category = "sneakers" → "Work" ∈ shoe.occasionTags →
      "work" ∉ shoe.occasionTags →
      isItemSuitableForOccasion shoe "work" = true ∧
      (∀ top bottom : ClothingItem,
        meetsOccasionRequirements top bottom shoe "work" = false) ∧
      (∀ o : OutfitCombination, o ∈ generateOutfits items "work" k →
        o.footwear ≠ shoe) := by
  intro items shoe k hcat htagW htagw
  have hsuit : isItemSuitableForOccasion shoe "work" = true := by
    unfold isItemSuitableForOccasion
    rw [jsToLower_work]
    simp only [List.any_eq_true]
    exact ⟨"Work", htagW, by rw [jsToLower_Work]; rfl⟩
  have hgate : ∀ top bottom : ClothingItem,
      meetsOccasionRequirements top bottom shoe "work" = false := by
    intro top bottom
    unfold meetsOccasionRequirements
    rw [jsToLower_work]
    have hcontains : shoe.occasionTags.contains "work" = false := by
      rw [← Bool.not_eq_true]
      intro hc
      obtain ⟨b, hb, hbeq⟩ := List.contains_iff_exists_mem_beq.mp hc
      exact htagw ((eq_of_beq hbeq) ▸ hb)
    simp [hcat, hcontains, htagw]
  refine ⟨hsuit, hgate, fun o h hfoot => ?_⟩
  have hmeets := (fields_of_mem_enumerateOutfits
    (mem_enumerateOutfits_of_mem_generateOutfits h)).2.2.2.1
  rw [hfoot, hgate o.top o.bottom] at hmeets
  exact Bool.false_ne_true hmeets

/-- Witness for C10 on a concrete wardrobe containing the mis-cased sneakers. -/
theorem workGate_caseSensitive_excludes_sneakers_witness :
    isItemSuitableForOccasion workSneaker "work" = true ∧
    meetsOccasionRequirements workTop workBottom workSneaker "work" = false ∧
    workCombo.footwear ≠ workSneaker := by
  obtain ⟨h1, h2, h3⟩ := workGate_caseSensitive_excludes_sneakers workCatalog workSneaker 10
    (by with_unfolding_all decide) (by with_unfolding_all decide)
    (by with_unfolding_all decide)
  exact ⟨h1, h2 workTop workBottom, h3 workCombo (by with_unfolding_all decide)⟩

/-! ## C4: the color score is clamped to [0,1] -/

/-- C4: for all input colors and any occasion string, the score returned by
`calculateColorCompatibility` lies in [0,1]: the rule-adjusted base score is
clamped to that interval before being returned. -/
theorem calculateColorCompatibility_score_bounds :
    ∀ topColor bottomColor shoeColor occasion : String,
      0 ≤ (calculateColorCompatibility topColor bottomColor shoeColor occasion).score ∧
      (calculateColorCompatibility topColor bottomColor shoeColor occasion).score ≤ 1 := by
  intro t b s occ
  unfold calculateColorCompatibility
  dsimp only
  exact ⟨le_max_left 0 _, max_le (by norm_num) (min_le_left 1 _)⟩

def overflowTop : ClothingItem := mkItem "t1" "shirt" "#ffffff" "slim" "cotton" ["formal"]

def overflowBottom : ClothingItem := mkItem "b1" "trousers" "#f0d8a8" "slim" "wool" ["formal"]

/-- A formal wardrobe whose single combination scores above 1.0. -/
def overflowCatalog : List ClothingItem :=
  [overflowTop, overflowBottom, formalShoe, formalBlazer]

/-- The single combination generated from `overflowCatalog` for "formal":
color score 0.95, fit 0.3, fabric 0.25, total 1.025. -/
def overflowCombo : OutfitCombination :=
  { top := overflowTop, bottom := overflowBottom, footwear := formalShoe,
    layer := some formalBlazer, compatibilityScore := 41/40, colorScore := 19/20,
    explanation := "All neutral colors create a sophisticated look. Low contrast is appropriate for formal settings",
    shoeRecommendation := "Brown leather shoes complement earth tones" }

def casualTop : ClothingItem := mkItem "t1" "tshirt" "#ffffff" "slim" "cotton" ["casual"]

def casualBottom : ClothingItem := mkItem "b1" "jeans" "#000000" "slim" "denim" ["casual"]

def casualShoe1 : ClothingItem := mkItem "s1" "sneakers" "#000000" "regular" "leather" ["casual"]

def casualShoe2 : ClothingItem := mkItem "s2" "boots" "#ffffff" "regular" "leather" ["casual"]

/-- A casual wardrobe producing two equally-scored combinations. -/
def casualCatalog : List ClothingItem :=
  [casualTop, casualBottom, casualShoe1, casualShoe2]

/-! ## C6: non-positive maxOutfits -/

/-- C6 counterexample: `maxOutfits = -1` is non-positive, yet on a wardrobe
with two valid combinations the result is not empty (JavaScript
`slice(0, -1)` keeps all but the last element). -/
theorem generateOutfits_negative_maxOutfits_counterexample :
    (-1 : ℤ) ≤ 0 ∧ generateOutfits casualCatalog "casual" (-1) ≠ [] := by
  constructor
  · decide
  · with_unfolding_all decide

/-- C6 amended: `maxOutfits = 0` always returns the empty array, and a
negative `maxOutfits = n` returns all but the last `|n|` combinations
(so the result is empty only when `|n|` is at least the number of surviving
combinations). -/
theorem generateOutfits_nonpositive_maxOutfits :
    (∀ (items : List ClothingItem) (occasion : String),
      generateOutfits items occasion 0 = []) ∧
    (∀ (items : List ClothingItem) (occasion : String) (n : ℤ), n < 0 →
      (generateOutfits items occasion n).length =
        ((enumerateOutfits items occasion).length + n).toNat) := by
  constructor
  · intro items occasion
    unfold generateOutfits jsSliceEnd
    simp
  · intro items occasion n hn
    unfold generateOutfits jsSliceEnd
    rw [if_pos hn]
    simp only [List.length_take, List.length_insertionSort]
    omega

/-- Witness for C6 (amended) on the casual wardrobe. -/
theorem generateOutfits_nonpositive_maxOutfits_witness :
    generateOutfits casualCatalog "casual" 0 = [] ∧
    (generateOutfits casualCatalog "casual" (-1)).length =
      (((enumerateOutfits casualCatalog "casual").length : ℤ) + (-1)).toNat :=
  ⟨generateOutfits_nonpositive_maxOutfits.1 casualCatalog "casual",
    generateOutfits_nonpositive_maxOutfits.2 casualCatalog "casual" (-1) (by decide)⟩

/-! ## C3: the compatibility score decomposition is not re-clamped -/

theorem calculateFitCompatibility_le :
    ∀ top bottom : ClothingItem, calculateFitCompatibility top bottom ≤ 0.3 := by
  intro top bottom
  unfold calculateFitCompatibility
  split_ifs <;> norm_num

theorem calculateFabricCompatibility_le :
    ∀ (top bottom : ClothingItem) (occasion : String),
      calculateFabricCompatibility top bottom occasion ≤ 0.25 := by
  intro top bottom occasion
  unfold calculateFabricCompatibility
  dsimp only
  split_ifs <;> norm_num

/-- C3: every returned outfit's `compatibilityScore` is exactly
`colorScore * 0.5 + fitScore + fabricScore` with `fitScore ≤ 0.3` and
`fabricScore ≤ 0.25`, the sum is not re-clamped to [0,1], and on a concrete
catalog a returned outfit scores strictly above 1.0. -/
theorem compatibilityScore_decomposition_unclamped :
    (∀ (items : List ClothingItem) (occasion : String) (k : ℤ) (o : OutfitCombination),
      o ∈ generateOutfits items occasion k →
      o.compatibilityScore = o.colorScore * 0.5 + calculateFitCompatibility o.top o.bottom +
        calculateFabricCompatibility o.top o.bottom occasion ∧
      calculateFitCompatibility o.top o.bottom ≤ 0.3 ∧
      calculateFabricCompatibility o.top o.bottom occasion ≤ 0.25) ∧
    (∃ o : OutfitCombination, o ∈ generateOutfits overflowCatalog "formal" 10 ∧
      1 < o.compatibilityScore) := by
  constructor
  · intro items occasion k o h
    have hf := fields_of_mem_enumerateOutfits (mem_enumerateOutfits_of_mem_generateOutfits h)
    exact ⟨hf.2.2.2.2.2.1, calculateFitCompatibility_le o.top o.bottom,
      calculateFabricCompatibility_le o.top o.bottom occasion⟩
  · refine ⟨overflowCombo, by with_unfolding_all decide, by norm_num [overflowCombo]⟩

/-- Witness for C3's universal part at a concrete returned outfit. -/
theorem compatibilityScore_decomposition_unclamped_witness :
    formalCombo.compatibilityScore = formalCombo.colorScore * 0.5 +
      calculateFitCompatibility formalCombo.top formalCombo.bottom +
      calculateFabricCompatibility formalCombo.top formalCombo.bottom "formal" ∧
    calculateFitCompatibility formalCombo.top formalCombo.bottom ≤ 0.3 ∧
    calculateFabricCompatibility formalCombo.top formalCombo.bottom "formal" ≤ 0.25 :=
  compatibilityScore_decomposition_unclamped.1 formalCatalog "formal" 10 formalCombo
    (by with_unfolding_all decide)

/-! ## C7: unknown occasion strings trigger no occasion rule -/

/-- The behaviour of `calculateColorCompatibility` on an occasion string that
matches none of the occasion comparisons in the code: rule 4's complementary
branch takes its non-casual/party penalty, rule 6 contributes nothing, and
every other rule is unchanged.  This is the "neutral baseline adjusted only
by the occasion-independent color rules". -/
def calculateColorCompatibilityUnknownOccasion (topColor bottomColor shoeColor : String) :
    ColorResult :=
  let topHsv := hexToHsv topColor
  let bottomHsv := hexToHsv bottomColor
  let shoeHsv := hexToHsv shoeColor
  let topNeutral := isNeutral topHsv
  let bottomNeutral := isNeutral bottomHsv
  let shoeNeutral := isNeutral shoeHsv
  let s1 : ℚ :=
    if topNeutral && bottomNeutral && shoeNeutral then 0.5 + 0.3
    else if (topNeutral || bottomNeutral) && shoeNeutral then 0.5 + 0.2
    else 0.5
  let r1 : List String :=
    if topNeutral && bottomNeutral && shoeNeutral then
      ["All neutral colors create a sophisticated look"]
    else if (topNeutral || bottomNeutral) && shoeNeutral then
      ["Neutral shoes balance the outfit"]
    else []
  let s2 := if topHsv.v < 40 ∧ 60 < bottomHsv.v then s1 + 0.15 else s1
  let r2 := if topHsv.v < 40 ∧ 60 < bottomHsv.v then
      r1 ++ ["Dark top with light bottom creates visual balance"] else r1
  let s3 := if 60 < topHsv.v ∧ bottomHsv.v < 40 then s2 + 0.1 else s2
  let r3 := if 60 < topHsv.v ∧ bottomHsv.v < 40 then
      r2 ++ ["Light top with dark bottom is a classic combination"] else r2
  let s4 := if areComplementary topHsv bottomHsv then s3 - 0.1 else s3
  let r4 :=
    if areComplementary topHsv bottomHsv then
      r3 ++ ["Complementary colors may be too bold for this occasion"]
    else r3
  let s5 := if areAnalogous topHsv bottomHsv ∧ topNeutral = false ∧ bottomNeutral = false then
      s4 + 0.15 else s4
  let r5 := if areAnalogous topHsv bottomHsv ∧ topNeutral = false ∧ bottomNeutral = false then
      r4 ++ ["Analogous colors create harmony"] else r4
  let s6 := s5
  let r6 := r5
  let s7 := if 60 < topHsv.s ∧ 50 < topHsv.v ∧ shoeNeutral = true then s6 + 0.1 else s6
  let r7 := if 60 < topHsv.s ∧ 50 < topHsv.v ∧ shoeNeutral = true then
      r6 ++ ["Neutral footwear balances the bold top"] else r6
  let s8 := if 60 < topHsv.s ∧ 60 < bottomHsv.s ∧ 60 < shoeHsv.s then s7 - 0.2 else s7
  let r8 := if 60 < topHsv.s ∧ 60 < bottomHsv.s ∧ 60 < shoeHsv.s then
      r7 ++ ["Too many bold colors can be overwhelming"] else r7
  let s9 := if |topHsv.h - bottomHsv.h| < 30 ∧ 20 < |topHsv.v - bottomHsv.v| ∧
      topNeutral = false then s8 + 0.15 else s8
  let r9 := if |topHsv.h - bottomHsv.h| < 30 ∧ 20 < |topHsv.v - bottomHsv.v| ∧
      topNeutral = false then r8 ++ ["Monochromatic palette creates cohesion"] else r8
  let score := max 0 (min 1 s9)
  let joined := String.intercalate ". " r9
  { score := score
    explanation := if joined = "" then "Standard color combination" else joined }

/-- C7: for any occasion string outside {formal, work, casual, college,
party, travel}, no occasion-specific comparison in
`calculateColorCompatibility` matches, and the result (score and
explanation) is exactly the occasion-independent baseline. -/
theorem calculateColorCompatibility_unknown_occasion :
    ∀ topColor bottomColor shoeColor occasion : String,
      occasion ∉ (["formal", "work", "casual", "college", "party", "travel"] : List String) →
      calculateColorCompatibility topColor bottomColor shoeColor occasion =
        calculateColorCompatibilityUnknownOccasion topColor bottomColor shoeColor := by
  intro t b s occ h
  simp only [List.mem_cons, List.not_mem_nil, or_false, not_or] at h
  obtain ⟨h1, h2, h3, h4, h5, -⟩ := h
  unfold calculateColorCompatibility calculateColorCompatibilityUnknownOccasion
  simp only [h1, h2, h3, h4, h5, or_self, if_false, ite_false]

/-- Witness for C7 at the unknown occasion "banquet". -/
theorem calculateColorCompatibility_unknown_occasion_witness :
    calculateColorCompatibility "#ff0000" "#00ff00" "#0000ff" "banquet" =
      calculateColorCompatibilityUnknownOccasion "#ff0000" "#00ff00" "#0000ff" :=
  calculateColorCompatibility_unknown_occasion "#ff0000" "#00ff00" "#0000ff" "banquet"
    (by decide)

/-! ## C5: the all-neutral formal smoke test -/

theorem isNeutral_s_lt_60 {hsv : HSV} (h : isNeutral hsv = true) : hsv.s < 60 := by
  unfold isNeutral at h
  split_ifs at h with h1 h2 h3
  · linarith
  · linarith [h2.2.2]
  · linarith [h3.2.2]

/-- All-neutral colors guarantee a color score of at least 0.8 for occasion
"formal" only when the top/bottom pair is additionally non-complementary and
of contrast below 0.3 (the spec's own "low-contrast" accounting). -/
theorem colorScore_formal_lower_bound (topColor bottomColor shoeColor : String)
    (hT : isNeutral (hexToHsv topColor) = true)
    (hB : isNeutral (hexToHsv bottomColor) = true)
    (hS : isNeutral (hexToHsv shoeColor) = true)
    (hComp : areComplementary (hexToHsv topColor) (hexToHsv bottomColor) = false)
    (hContrast : calculateContrast (hexToHsv topColor) (hexToHsv bottomColor) < 0.3) :
    (0.8 : ℚ) ≤ (calculateColorCompatibility topColor bottomColor shoeColor "formal").score := by
  have hTs := isNeutral_s_lt_60 hT
  have hTs' : ¬(60 < (hexToHsv topColor).s) := by linarith
  unfold calculateColorCompatibility
  dsimp only
  simp only [hT, hB, hS, hComp, hTs', hContrast, Bool.and_self, Bool.false_eq_true,
    if_true, if_false, ite_true, ite_false, false_and, and_false, String.reduceEq,
    or_self, or_false, false_or, true_or, or_true, if_pos, not_false_eq_true]
  refine le_trans ?_ (le_max_right 0 _)
  refine le_min (by norm_num) ?_
  split_ifs <;> norm_num

/-- C5 counterexample: `formalCatalog` satisfies every premise of the claim
(one eligible item per slot, category-admissible, all tagged "formal", all
primary colors neutral), and the generator does return exactly one
combination with the layer present — but its `colorScore` is 0.7 < 0.8:
the neutral navy top `#99ccff` against the black bottom picks up the
complementary-hue penalty and the high-contrast formal penalty. -/
theorem generateOutfits_formal_smoke_counterexample :
    formalCatalog.map ClothingItem.category =
      ["shirt", "trousers", "formal_shoes", "blazer"] ∧
    (formalCatalog.all fun i => isItemSuitableForOccasion i "formal") = true ∧
    (formalCatalog.all fun i => isNeutral (hexToHsv i.primaryColor)) = true ∧
    (generateOutfits formalCatalog "formal" 10).map OutfitCombination.layer =
      [some formalBlazer] ∧
    (generateOutfits formalCatalog "formal" 10).map OutfitCombination.colorScore =
      [7/10] ∧
    ¬((0.8 : ℚ) ≤ 7/10) :=
  ⟨by with_unfolding_all decide, by with_unfolding_all decide, by with_unfolding_all decide,
    by with_unfolding_all decide, by with_unfolding_all decide, by norm_num⟩

/-- C5 amended: with one eligible item per slot (all tagged for "formal",
all primary colors neutral) and — as the counterexample forces — the
top/bottom pair non-complementary and of contrast below 0.3, the generator
returns exactly one combination, with the layer present and
`colorScore ≥ 0.8`. -/
theorem generateOutfits_formal_smoke_amended :
    ∀ t b s l : ClothingItem,
      t.category = "shirt" → b.category = "trousers" → s.category = "formal_shoes" →
      l.category = "blazer" →
      isItemSuitableForOccasion t "formal" = true →
      isItemSuitableForOccasion b "formal" = true →
      isItemSuitableForOccasion s "formal" = true →
      isItemSuitableForOccasion l "formal" = true →
      isNeutral (hexToHsv t.primaryColor) = true →
      isNeutral (hexToHsv b.primaryColor) = true →
      isNeutral (hexToHsv s.primaryColor) = true →
      isNeutral (hexToHsv l.primaryColor) = true →
      areComplementary (hexToHsv t.primaryColor) (hexToHsv b.primaryColor) = false →
      calculateContrast (hexToHsv t.primaryColor) (hexToHsv b.primaryColor) < 0.3 →
      (generateOutfits [t, b, s, l] "formal" 10).length = 1 ∧
      (generateOutfits [t, b, s, l] "formal" 10).map OutfitCombination.layer = [some l] ∧
      ∀ o ∈ generateOutfits [t, b, s, l] "formal" 10, (0.8 : ℚ) ≤ o.colorScore := by
  intro t b s l ht hb hs hl hsT hsB hsS hsL hT hB hS hL hComp hContrast
  have hres : generateOutfits [t, b, s, l] "formal" 10 =
      [{ top := t, bottom := b, footwear := s, layer := some l,
         compatibilityScore := (calculateColorCompatibility t.primaryColor b.primaryColor
           s.primaryColor "formal").score * 0.5 + calculateFitCompatibility t b +
           calculateFabricCompatibility t b "formal",
         colorScore := (calculateColorCompatibility t.primaryColor b.primaryColor
           s.primaryColor "formal").score,
         explanation := (calculateColorCompatibility t.primaryColor b.primaryColor
           s.primaryColor "formal").explanation,
         shoeRecommendation := getShoeRecommendation t.primaryColor b.primaryColor
           "formal" }] := by
    simp [generateOutfits, enumerateOutfits, jsSliceEnd, ht, hb, hs, hl, hsT, hsB, hsS, hsL,
      getCategoryType, meetsOccasionRequirements, jsToLower_formal]
  refine ⟨by rw [hres]; rfl, by rw [hres]; rfl, ?_⟩
  intro o ho
  rw [hres] at ho
  simp only [List.mem_singleton] at ho
  rw [ho]
  exact colorScore_formal_lower_bound t.primaryColor b.primaryColor s.primaryColor
    hT hB hS hComp hContrast

/-- Witness for C5 (amended) on the overflow wardrobe, whose colors satisfy
the amended premises. -/
theorem generateOutfits_formal_smoke_amended_witness :
    (generateOutfits overflowCatalog "formal" 10).length = 1 ∧
    (generateOutfits overflowCatalog "formal" 10).map OutfitCombination.layer =
      [some formalBlazer] ∧
    (0.8 : ℚ) ≤ overflowCombo.colorScore := by
  obtain ⟨h1, h2, h3⟩ := generateOutfits_formal_smoke_amended overflowTop overflowBottom
    formalShoe formalBlazer rfl rfl rfl rfl
    (by with_unfolding_all decide) (by with_unfolding_all decide)
    (by with_unfolding_all decide) (by with_unfolding_all decide)
    (by with_unfolding_all decide) (by with_unfolding_all decide)
    (by with_unfolding_all decide) (by with_unfolding_all decide)
    (by with_unfolding_all decide) (by with_unfolding_all decide)
  exact ⟨h1, h2, h3 overflowCombo (by with_unfolding_all decide)⟩

/-! ## C2: ranking, truncation and stability -/

/-- C2: for any catalog, occasion and non-negative `maxOutfits`, the result
of `generateOutfits` is sorted by `compatibilityScore` in non-increasing
order, has length at most `maxOutfits`, and is stable: for every score
value, the returned combinations with that score form a sublist of the
enumeration-ordered (tops, then bottoms, then footwear) combinations with
that score. -/
theorem generateOutfits_sorted_truncated_stable :
    ∀ (items : List ClothingItem) (occasion : String) (k : ℤ), 0 ≤ k →
      (generateOutfits items occasion k).Pairwise
        (fun a b => b.compatibilityScore ≤ a.compatibilityScore) ∧
      ((generateOutfits items occasion k).length : ℤ) ≤ k ∧
      ∀ v : ℚ,
        List.Sublist
          ((generateOutfits items occasion k).filter
            (fun o => decide (o.compatibilityScore = v)))
          ((enumerateOutfits items occasion).filter
            (fun o => decide (o.compatibilityScore = v))) := by
  intro items occasion k hk
  have hsorted : (List.insertionSort outfitGE (enumerateOutfits items occasion)).Pairwise
      outfitGE := List.sorted_insertionSort outfitGE (enumerateOutfits items occasion)
  have hperm : List.Perm (List.insertionSort outfitGE (enumerateOutfits items occasion))
      (enumerateOutfits items occasion) := List.perm_insertionSort outfitGE _
  have htake : List.Sublist (generateOutfits items occasion k)
      (List.insertionSort outfitGE (enumerateOutfits items occasion)) := by
    unfold generateOutfits jsSliceEnd
    exact List.take_sublist _ _
  refine ⟨List.Pairwise.sublist htake hsorted, ?_, ?_⟩
  · unfold generateOutfits jsSliceEnd
    rw [if_neg (by omega)]
    simp only [List.length_take, List.length_insertionSort]
    omega
  · intro v
    set p : OutfitCombination → Bool := fun o => decide (o.compatibilityScore = v) with hp
    have hmemscore : ∀ o ∈ (enumerateOutfits items occasion).filter p,
        o.compatibilityScore = v := by
      intro o ho
      have := (List.mem_filter.mp ho).2
      rw [hp] at this
      exact of_decide_eq_true this
    have hd : ((enumerateOutfits items occasion).filter p).Pairwise outfitGE := by
      refine List.pairwise_of_forall_mem_list ?_
      intro a ha b hb
      unfold outfitGE
      rw [hmemscore a ha, hmemscore b hb]
    have hsub : List.Sublist ((enumerateOutfits items occasion).filter p)
        (List.insertionSort outfitGE (enumerateOutfits items occasion)) :=
      List.sublist_insertionSort hd (List.filter_sublist _)
    have h1 : List.Sublist ((enumerateOutfits items occasion).filter p)
        ((List.insertionSort outfitGE (enumerateOutfits items occasion)).filter p) := by
      have h2 := hsub.filter p
      rwa [List.filter_eq_self.mpr (fun a ha => (List.mem_filter.mp ha).2)] at h2
    have hlen : ((List.insertionSort outfitGE (enumerateOutfits items occasion)).filter
        p).length = ((enumerateOutfits items occasion).filter p).length :=
      (hperm.filter p).length_eq
    have heq : (List.insertionSort outfitGE (enumerateOutfits items occasion)).filter p =
        (enumerateOutfits items occasion).filter p :=
      (h1.eq_of_length hlen.symm).symm
    have h3 := htake.filter p
    rw [heq] at h3
    exact h3

/-- Witness for C2 on the casual wardrobe with two tied combinations. -/
theorem generateOutfits_sorted_truncated_stable_witness :
    (generateOutfits casualCatalog "casual" 10).Pairwise
      (fun a b => b.compatibilityScore ≤ a.compatibilityScore) ∧
    ((generateOutfits casualCatalog "casual" 10).length : ℤ) ≤ 10 ∧
    List.Sublist
      ((generateOutfits casualCatalog "casual" 10).filter
        (fun o => decide (o.compatibilityScore = 1)))
      ((enumerateOutfits casualCatalog "casual").filter
        (fun o => decide (o.compatibilityScore = 1))) := by
  obtain ⟨h1, h2, h3⟩ := generateOutfits_sorted_truncated_stable casualCatalog "casual" 10
    (by decide)
  exact ⟨h1, h2, h3 1⟩

/-! ## C8 and C9: hex parsing and HSV ranges -/

theorem char_toNat_le_of_le {c d : Char} (h : c ≤ d) : c.toNat ≤ d.toNat :=
  BitVec.le_def.mp h

theorem hexDigitVal_le_15 (c : Char) : hexDigitVal c ≤ 15 := by
  unfold hexDigitVal
  split_ifs with h1 h2 h3
  · simp only [Bool.and_eq_true, decide_eq_true_eq] at h1
    have h9 := char_toNat_le_of_le h1.2
    have e1 : ('9').toNat = 57 := rfl
    have e2 : ('0').toNat = 48 := rfl
    omega
  · simp only [Bool.and_eq_true, decide_eq_true_eq] at h2
    have hf := char_toNat_le_of_le h2.2
    have e1 : ('f').toNat = 102 := rfl
    have e2 : ('a').toNat = 97 := rfl
    omega
  · simp only [Bool.and_eq_true, decide_eq_true_eq] at h3
    have hF := char_toNat_le_of_le h3.2
    have e1 : ('F').toNat = 70 := rfl
    have e2 : ('A').toNat = 65 := rfl
    omega
  · omega

theorem hexPairVal_le_255 (c1 c2 : Char) : hexPairVal c1 c2 ≤ 255 := by
  have := hexDigitVal_le_15 c1
  have := hexDigitVal_le_15 c2
  unfold hexPairVal
  omega

theorem hexToRgb_channels_le (s : String) :
    (hexToRgb s).r ≤ 255 ∧ (hexToRgb s).g ≤ 255 ∧ (hexToRgb s).b ≤ 255 := by
  unfold hexToRgb
  split
  · split
    · exact ⟨hexPairVal_le_255 _ _, hexPairVal_le_255 _ _, hexPairVal_le_255 _ _⟩
    · exact ⟨by simp, by simp, by simp⟩
  · exact ⟨by simp, by simp, by simp⟩

theorem jsRound_le {x : ℚ} {z : ℤ} (h : x ≤ (z : ℚ)) : jsRound x ≤ z := by
  unfold jsRound
  have h2 : x + 1/2 < ((z + 1 : ℤ) : ℚ) := by push_cast; linarith
  have := Int.floor_lt.mpr h2
  omega

theorem le_jsRound {x : ℚ} {z : ℤ} (h : (z : ℚ) ≤ x) : z ≤ jsRound x := by
  unfold jsRound
  exact Int.le_floor.mpr (by linarith)

theorem jsRem_eq_self {x y : ℚ} (hy : 0 < y) (h : |x| < y) : jsRem x y = x := by
  unfold jsRem jsTrunc
  have hlt : |x / y| < 1 := by
    rw [abs_div, abs_of_pos hy]
    exact (div_lt_one hy).mpr h
  rw [abs_lt] at hlt
  split_ifs with hx
  · rw [Int.floor_eq_zero_iff.mpr ⟨hx, hlt.2⟩]
    push_cast
    ring
  · rw [Int.ceil_eq_zero_iff.mpr ⟨hlt.1, le_of_lt (not_le.mp hx)⟩]
    push_cast
    ring

theorem rgbToHsv_ranges (rgb : RGB) (hr : rgb.r ≤ 255) (hg : rgb.g ≤ 255)
    (hb : rgb.b ≤ 255) :
    (∃ z : ℤ, (rgbToHsv rgb).h = (z : ℚ) ∧ 0 ≤ z ∧ z < 360) ∧
    (0 ≤ (rgbToHsv rgb).s ∧ (rgbToHsv rgb).s ≤ 100) ∧
    (0 ≤ (rgbToHsv rgb).v ∧ (rgbToHsv rgb).v ≤ 100) := by
  have hr0 : (0 : ℚ) ≤ (rgb.r : ℚ)/255 := by positivity
  have hg0 : (0 : ℚ) ≤ (rgb.g : ℚ)/255 := by positivity
  have hb0 : (0 : ℚ) ≤ (rgb.b : ℚ)/255 := by positivity
  have hr1 : (rgb.r : ℚ)/255 ≤ 1 := by
    rw [div_le_one (by norm_num)]
    exact_mod_cast hr
  have hg1 : (rgb.g : ℚ)/255 ≤ 1 := by
    rw [div_le_one (by norm_num)]
    exact_mod_cast hg
  have hb1 : (rgb.b : ℚ)/255 ≤ 1 := by
    rw [div_le_one (by norm_num)]
    exact_mod_cast hb
  unfold rgbToHsv
  dsimp only
  set r : ℚ := (rgb.r : ℚ)/255 with hrdef
  set g : ℚ := (rgb.g : ℚ)/255 with hgdef
  set b : ℚ := (rgb.b : ℚ)/255 with hbdef
  set mx : ℚ := Max.max r (Max.max g b) with hmxdef
  set mn : ℚ := Min.min r (Min.min g b) with hmndef
  have hrmx : r ≤ mx := le_max_left _ _
  have hgmx : g ≤ mx := le_trans (le_max_left _ _) (le_max_right _ _)
  have hbmx : b ≤ mx := le_trans (le_max_right _ _) (le_max_right _ _)
  have hmnr : mn ≤ r := min_le_left _ _
  have hmng : mn ≤ g := le_trans (min_le_right _ _) (min_le_left _ _)
  have hmnb : mn ≤ b := le_trans (min_le_right _ _) (min_le_right _ _)
  have hmn0 : 0 ≤ mn := le_min hr0 (le_min hg0 hb0)
  have hmx1 : mx ≤ 1 := max_le hr1 (max_le hg1 hb1)
  have hmx0 : 0 ≤ mx := le_trans hr0 hrmx
  have hmnmx : mn ≤ mx := le_trans hmnr hrmx
  refine ⟨?_, ⟨?_, ?_⟩, ⟨?_, ?_⟩⟩
  · -- hue
    by_cases hd : mx - mn = 0
    · rw [if_pos hd]
      have h0 : jsRound ((0 : ℚ) * 60) = 0 := by
        unfold jsRound
        norm_num
      rw [h0]
      exact ⟨0, by norm_num, by norm_num, by norm_num⟩
    · rw [if_neg hd]
      have hdpos : 0 < mx - mn := lt_of_le_of_ne (by linarith) (Ne.symm hd)
      by_cases hmr : mx = r
      · rw [if_pos hmr]
        have hx1 : (g - b) / (mx - mn) ≤ 1 := by
          rw [div_le_one hdpos]
          linarith
        have hx2 : (-1 : ℚ) ≤ (g - b) / (mx - mn) := by
          rw [le_div_iff₀ hdpos]
          linarith
        rw [jsRem_eq_self (by norm_num) (by rw [abs_lt]; constructor <;> linarith)]
        have hlo : (-60 : ℤ) ≤ jsRound ((g - b) / (mx - mn) * 60) :=
          le_jsRound (by push_cast; linarith)
        have hhi : jsRound ((g - b) / (mx - mn) * 60) ≤ 60 :=
          jsRound_le (by push_cast; linarith)
        refine ⟨if jsRound ((g - b) / (mx - mn) * 60) < 0 then
          jsRound ((g - b) / (mx - mn) * 60) + 360 else
          jsRound ((g - b) / (mx - mn) * 60), by split_ifs <;> push_cast <;> ring, ?_, ?_⟩
        · split_ifs with hneg <;> omega
        · split_ifs with hneg <;> omega
      · rw [if_neg hmr]
        by_cases hmg : mx = g
        · rw [if_pos hmg]
          have hx1 : (b - r) / (mx - mn) ≤ 1 := by
            rw [div_le_one hdpos]
            linarith
          have hx2 : (-1 : ℚ) ≤ (b - r) / (mx - mn) := by
            rw [le_div_iff₀ hdpos]
            linarith
          have hlo : (60 : ℤ) ≤ jsRound (((b - r) / (mx - mn) + 2) * 60) :=
            le_jsRound (by push_cast; linarith)
          have hhi : jsRound (((b - r) / (mx - mn) + 2) * 60) ≤ 180 :=
            jsRound_le (by push_cast; linarith)
          refine ⟨if jsRound (((b - r) / (mx - mn) + 2) * 60) < 0 then
            jsRound (((b - r) / (mx - mn) + 2) * 60) + 360 else
            jsRound (((b - r) / (mx - mn) + 2) * 60),
            by split_ifs <;> push_cast <;> ring, ?_, ?_⟩
          · split_ifs with hneg <;> omega
          · split_ifs with hneg <;> omega
        · rw [if_neg hmg]
          have hx1 : (r - g) / (mx - mn) ≤ 1 := by
            rw [div_le_one hdpos]
            linarith
          have hx2 : (-1 : ℚ) ≤ (r - g) / (mx - mn) := by
            rw [le_div_iff₀ hdpos]
            linarith
          have hlo : (180 : ℤ) ≤ jsRound (((r - g) / (mx - mn) + 4) * 60) :=
            le_jsRound (by push_cast; linarith)
          have hhi : jsRound (((r - g) / (mx - mn) + 4) * 60) ≤ 300 :=
            jsRound_le (by push_cast; linarith)
          refine ⟨if jsRound (((r - g) / (mx - mn) + 4) * 60) < 0 then
            jsRound (((r - g) / (mx - mn) + 4) * 60) + 360 else
            jsRound (((r - g) / (mx - mn) + 4) * 60),
            by split_ifs <;> push_cast <;> ring, ?_, ?_⟩
          · split_ifs with hneg <;> omega
          · split_ifs with hneg <;> omega
  · -- s lower
    split_ifs with hmx
    · norm_num
    · have hmxpos : 0 < mx := lt_of_le_of_ne hmx0 (Ne.symm hmx)
      exact mul_nonneg (div_nonneg (by linarith) hmxpos.le) (by norm_num)
  · -- s upper
    split_ifs with hmx
    · norm_num
    · have hmxpos : 0 < mx := lt_of_le_of_ne hmx0 (Ne.symm hmx)
      have hq : (mx - mn) / mx ≤ 1 := by
        rw [div_le_one hmxpos]
        linarith
      nlinarith
  · -- v lower
    positivity
  · -- v upper
    nlinarith

/-- C8: for every input string, `hexToHsv` returns a triple whose hue is an
integer in [0,360) (the rounded, sign-normalized hue never reaches 360),
whose saturation is in [0,100] and whose value is in [0,100]. -/
theorem hexToHsv_ranges :
    ∀ s : String,
      (∃ z : ℤ, (hexToHsv s).h = (z : ℚ) ∧ 0 ≤ z ∧ z < 360) ∧
      (0 ≤ (hexToHsv s).s ∧ (hexToHsv s).s ≤ 100) ∧
      (0 ≤ (hexToHsv s).v ∧ (hexToHsv s).v ≤ 100) := by
  intro s
  obtain ⟨h1, h2, h3⟩ := hexToRgb_channels_le s
  exact rgbToHsv_ranges (hexToRgb s) h1 h2 h3

/-- The spec's description of a parsable color: an optional `#` followed by
exactly six hexadecimal digits (case-insensitive). -/
def specHexShape (s : String) : Prop :=
  ∃ c1 c2 c3 c4 c5 c6 : Char,
    (s.data = [c1, c2, c3, c4, c5, c6] ∨ s.data = ['#', c1, c2, c3, c4, c5, c6]) ∧
    isHexDigit c1 = true ∧ isHexDigit c2 = true ∧ isHexDigit c3 = true ∧
    isHexDigit c4 = true ∧ isHexDigit c5 = true ∧ isHexDigit c6 = true

theorem stripHash_cons_of_ne {c : Char} (h : c ≠ '#') (cs : List Char) :
    stripHash (c :: cs) = c :: cs := by
  unfold stripHash
  split
  · next rest heq =>
    injection heq with h1 h2
    exact absurd h1 h
  · rfl

theorem stripHash_cases (cs : List Char) :
    cs = stripHash cs ∨ cs = '#' :: stripHash cs := by
  unfold stripHash
  split
  · next rest => right; rfl
  · left; rfl

/-- C9: `hexToRgb` is total (the Lean model is a total function, mirroring
the exception-free source).  Every string of the shape "optional `#` followed
by exactly six hex digits (case-insensitive)" parses to the three 8-bit
channels read two hex digits per channel, and every other string yields
black `{r := 0, g := 0, b := 0}` rather than an error. -/
theorem hexToRgb_parse :
    ∀ s : String,
      (∀ c1 c2 c3 c4 c5 c6 : Char,
        (s.data = [c1, c2, c3, c4, c5, c6] ∨ s.data = ['#', c1, c2, c3, c4, c5, c6]) →
        isHexDigit c1 = true → isHexDigit c2 = true → isHexDigit c3 = true →
        isHexDigit c4 = true → isHexDigit c5 = true → isHexDigit c6 = true →
        hexToRgb s =
          RGB.mk (hexPairVal c1 c2) (hexPairVal c3 c4) (hexPairVal c5 c6)) ∧
      (¬ specHexShape s → hexToRgb s = { r := 0, g := 0, b := 0 }) := by
  intro s
  constructor
  · intro c1 c2 c3 c4 c5 c6 hor hd1 hd2 hd3 hd4 hd5 hd6
    have hne : c1 ≠ '#' := by
      intro he
      rw [he] at hd1
      exact absurd hd1 (by decide)
    unfold hexToRgb
    rcases hor with h | h
    · rw [h, stripHash_cons_of_ne hne]
      simp [hd1, hd2, hd3, hd4, hd5, hd6]
    · rw [h]
      have hsh : stripHash ['#', c1, c2, c3, c4, c5, c6] = [c1, c2, c3, c4, c5, c6] := rfl
      rw [hsh]
      simp [hd1, hd2, hd3, hd4, hd5, hd6]
  · intro hns
    unfold hexToRgb
    split
    · next c1 c2 c3 c4 c5 c6 heq =>
      split
      · next hdig =>
        exfalso
        apply hns
        simp only [Bool.and_eq_true] at hdig
        obtain ⟨⟨⟨⟨⟨h1, h2⟩, h3⟩, h4⟩, h5⟩, h6⟩ := hdig
        refine ⟨c1, c2, c3, c4, c5, c6, ?_, h1, h2, h3, h4, h5, h6⟩
        have := stripHash_cases s.data
        rw [heq] at this
        exact this
      · rfl
    · rfl

/-- Witness for C9: a parse with `#`, a parse without `#`, and a malformed
string defaulting to black. -/
theorem hexToRgb_parse_witness :
    hexToRgb "#1a2B3c" =
      RGB.mk (hexPairVal '1' 'a') (hexPairVal '2' 'B') (hexPairVal '3' 'c') ∧
    hexToRgb "0f0a00" =
      RGB.mk (hexPairVal '0' 'f') (hexPairVal '0' 'a') (hexPairVal '0' '0') ∧
    hexToRgb "not-a-color" = { r := 0, g := 0, b := 0 } := by
  refine ⟨(hexToRgb_parse "#1a2B3c").1 '1' 'a' '2' 'B' '3' 'c' (Or.inr (by decide))
      (by decide) (by decide) (by decide) (by decide) (by decide) (by decide),
    (hexToRgb_parse "0f0a00").1 '0' 'f' '0' 'a' '0' '0' (Or.inl (by decide))
      (by decide) (by decide) (by decide) (by decide) (by decide) (by decide),
    (hexToRgb_parse "not-a-color").2 ?_⟩
  intro h
  obtain ⟨c1, c2, c3, c4, c5, c6, hor, -⟩ := h
  rcases hor with h | h
  · have hl := congrArg List.length h
    exact absurd hl (show ¬("not-a-color".data.length = 6) by decide)
  · have hl := congrArg List.length h
    exact absurd hl (show ¬("not-a-color".data.length = 7) by decide)
